import Mathlib

/-!
Shallow embedding of the entity-graph consistency and query-composition layer
of the urban_api repository: the data model (one Lean structure per table),
the SQLAlchemy result-handling primitives (`one`, `one_or_none`), and the
logic functions of `logic/physical_objects.py`,
`logic/impl/helpers/territory_services.py` and
`logic/impl/helpers/territories_physical_objects.py`, with theorems settling
the specification claims about them.

Storage is a record of lists (one per table); a transactional operation maps
the committed database and the inputs to the committed database after the
call together with the result or the raised error (an uncommitted session is
rolled back, so an operation that raises before `commit` leaves the original
database).  Inner joins are list comprehensions over the joined tables.
-/

namespace UrbanApi

/-- Free-form JSON property map, modelled as an association list. -/
abbrev Props := List (String × String)

/-- Geometry value: the variant set handled by the geometry codec
(Point, LineString, Polygon, MultiPolygon), coordinates as integers. -/
inductive Geom where
  | point : Int → Int → Geom
  | linestring : List (Int × Int) → Geom
  | polygon : List (List (Int × Int)) → Geom
  | multipolygon : List (List (List (Int × Int))) → Geom
  deriving DecidableEq, Repr

/-- Row of `territories_data` (only the columns this layer reads). -/
structure Territory where
  territory_id : Nat
  name : String
  deriving DecidableEq, Repr

/-- Row of `physical_object_types_dict`. -/
structure PhysicalObjectType where
  physical_object_type_id : Nat
  name : String
  deriving DecidableEq, Repr

/-- Row of `physical_objects_data`. -/
structure PhysicalObject where
  physical_object_id : Nat
  physical_object_type_id : Nat
  name : String
  properties : Props
  deriving DecidableEq, Repr

/-- Row of `object_geometries_data`: geometry and centre point are stored in
the spatial encoding with SRID 4326 fixed. -/
structure ObjectGeometry where
  object_geometry_id : Nat
  territory_id : Nat
  geometry : Geom
  centre_point : Geom
  address : String
  deriving DecidableEq, Repr

/-- Row of `urban_objects_data`: the junction linking a physical object, a
geometry and, optionally, a service. -/
structure UrbanObject where
  urban_object_id : Nat
  physical_object_id : Nat
  object_geometry_id : Nat
  service_id : Option Nat
  deriving DecidableEq, Repr

/-- Row of `service_types_dict`. -/
structure ServiceType where
  service_type_id : Nat
  urban_function_id : Nat
  name : String
  capacity_modeled : Int
  code : String
  deriving DecidableEq, Repr

/-- Row of `territory_types_dict`. -/
structure TerritoryType where
  territory_type_id : Nat
  name : String
  deriving DecidableEq, Repr

/-- Row of `services_data`. -/
structure Service where
  service_id : Nat
  service_type_id : Nat
  territory_type_id : Nat
  name : String
  capacity_real : Int
  properties : Props
  deriving DecidableEq, Repr

/-- Row of `living_buildings_data`. -/
structure LivingBuilding where
  living_building_id : Nat
  physical_object_id : Nat
  residents_number : Int
  living_area : Int
  properties : Props
  deriving DecidableEq, Repr

/-- The committed database: one list of rows per table. -/
structure Db where
  territories_data : List Territory
  physical_object_types_dict : List PhysicalObjectType
  physical_objects_data : List PhysicalObject
  object_geometries_data : List ObjectGeometry
  urban_objects_data : List UrbanObject
  service_types_dict : List ServiceType
  territory_types_dict : List TerritoryType
  services_data : List Service
  living_buildings_data : List LivingBuilding
  deriving DecidableEq, Repr

/-- Errors an operation can raise: `httpException status detail` models the
typed `fastapi.HTTPException`; `noResultFound` and `multipleResultsFound` model
the untyped SQLAlchemy errors raised by `.one()` and `.one_or_none()`;
`statementError` models executing an UPDATE whose value set is empty. -/
inductive DbError where
  | httpException : Nat → String → DbError
  | noResultFound : DbError
  | multipleResultsFound : DbError
  | statementError : DbError
  deriving DecidableEq, Repr

/-- SQLAlchemy `.one_or_none()`: `none` on zero rows, the row on exactly one,
and the `MultipleResultsFound` error on two or more. -/
def one_or_none {α : Type} (rows : List α) : Except DbError (Option α) :=
  match rows with
  | [] => .ok none
  | [a] => .ok (some a)
  | _ => .error DbError.multipleResultsFound

/-- SQLAlchemy `.one()` / `.scalar_one()`: the row on exactly one result, the
`NoResultFound` error on zero, `MultipleResultsFound` on two or more. -/
def result_one {α : Type} (rows : List α) : Except DbError α :=
  match rows with
  | [] => .error DbError.noResultFound
  | [a] => .ok a
  | _ => .error DbError.multipleResultsFound

/-- Identifier generated by the database sequence for an insert: one more
than the largest identifier already present. -/
def nextId (ids : List Nat) : Nat := ids.foldr max 0 + 1

/-- Lower-case a string character by character. -/
def lowerStr (s : String) : String := String.mk (s.data.map Char.toLower)

/-- Whether the first character list is a prefix of the second. -/
def charsStartWith : List Char → List Char → Bool
  | [], _ => true
  | _ :: _, [] => false
  | a :: as, b :: bs => a == b && charsStartWith as bs

/-- Whether the needle occurs as a contiguous subsequence of the haystack. -/
def charsContain (hay needle : List Char) : Bool :=
  match hay with
  | [] => needle.isEmpty
  | _ :: rest => charsStartWith needle hay || charsContain rest needle

/-- SQL `column ILIKE` with the pattern wrapped in percent wildcards:
case-insensitive substring match. -/
def ilike (hay pat : String) : Bool := charsContain (lowerStr hay).data (lowerStr pat).data

/-- SQL `SUM` aggregate over the selected rows: NULL (`none`) when the query
yields no row, otherwise the sum. -/
def sqlSum (l : List Int) : Option Int :=
  match l with
  | [] => none
  | _ => some l.sum

/-- A single predicate of a composed query's WHERE clause.  The literal of
`serviceTypeEq` is optional because the capacity aggregation passes its raw
optional input straight into the comparison; comparing the non-null
`service_type_id` column against a NULL literal matches no row. -/
inductive Pred where
  | geomTerritoryEq : Nat → Pred
  | serviceTypeEq : Option Nat → Pred
  | serviceNameIlike : String → Pred
  | poTypeEq : Nat → Pred
  | poNameIlike : String → Pred
  deriving DecidableEq, Repr

/-- Join topology of a composed query over the entity graph. -/
inductive JoinKind where
  | territoryServices
  | territoryServicesWithGeometry
  | territoryPhysicalObjects
  | territoryServicesCapacitySum
  deriving DecidableEq, Repr

/-- A query executed on the session: either the existence check of a
territory by id, or a composed join over the entity graph together with its
predicate set. -/
inductive Query where
  | territoriesById : Nat → Query
  | entityJoin : JoinKind → List Pred → Query
  deriving DecidableEq, Repr

/-- Whether a query is a join against the entity graph (as opposed to a plain
existence check). -/
def Query.isEntityJoin : Query → Bool
  | .entityJoin _ _ => true
  | _ => false

/-- Join row of services ⋈ urban_objects ⋈ object_geometries ⋈
service_types_dict ⋈ territory_types_dict (territory-scoped service
listings). -/
structure SvcTerrRow where
  s : Service
  uo : UrbanObject
  g : ObjectGeometry
  st : ServiceType
  tt : TerritoryType
  deriving DecidableEq, Repr

/-- Join row of services ⋈ urban_objects ⋈ object_geometries (capacity
aggregation). -/
structure SvcCapRow where
  s : Service
  uo : UrbanObject
  g : ObjectGeometry
  deriving DecidableEq, Repr

/-- Join row of services ⋈ urban_objects ⋈ service_types_dict ⋈
territory_types_dict (services scoped by physical object). -/
structure SvcPoRow where
  s : Service
  uo : UrbanObject
  st : ServiceType
  tt : TerritoryType
  deriving DecidableEq, Repr

/-- Join row of physical_objects ⋈ urban_objects ⋈ object_geometries ⋈
physical_object_types_dict (territory-scoped physical-object listing and the
single-entity physical-object read). -/
structure PoTerrRow where
  po : PhysicalObject
  uo : UrbanObject
  g : ObjectGeometry
  pot : PhysicalObjectType
  deriving DecidableEq, Repr

/-- Join row of living_buildings ⋈ physical_objects ⋈
physical_object_types_dict ⋈ urban_objects ⋈ object_geometries
(single-entity living-building read). -/
structure LbRow where
  lb : LivingBuilding
  po : PhysicalObject
  pot : PhysicalObjectType
  uo : UrbanObject
  g : ObjectGeometry
  deriving DecidableEq, Repr

/-- Inner join used by the territory-scoped service listings. -/
def svc_terr_join (db : Db) : List SvcTerrRow :=
  db.services_data.flatMap fun s =>
    db.urban_objects_data.flatMap fun uo =>
      db.object_geometries_data.flatMap fun g =>
        db.service_types_dict.flatMap fun st =>
          db.territory_types_dict.filterMap fun tt =>
            if uo.service_id == some s.service_id
                && uo.object_geometry_id == g.object_geometry_id
                && st.service_type_id == s.service_type_id
                && tt.territory_type_id == s.territory_type_id
            then some ⟨s, uo, g, st, tt⟩ else none

/-- Inner join used by the capacity aggregation. -/
def svc_cap_join (db : Db) : List SvcCapRow :=
  db.services_data.flatMap fun s =>
    db.urban_objects_data.flatMap fun uo =>
      db.object_geometries_data.filterMap fun g =>
        if uo.service_id == some s.service_id
            && uo.object_geometry_id == g.object_geometry_id
        then some ⟨s, uo, g⟩ else none

/-- Inner join used by the physical-object-scoped service listing. -/
def svc_po_join (db : Db) : List SvcPoRow :=
  db.services_data.flatMap fun s =>
    db.urban_objects_data.flatMap fun uo =>
      db.service_types_dict.flatMap fun st =>
        db.territory_types_dict.filterMap fun tt =>
          if uo.service_id == some s.service_id
              && st.service_type_id == s.service_type_id
              && tt.territory_type_id == s.territory_type_id
          then some ⟨s, uo, st, tt⟩ else none

/-- Inner join used by the territory-scoped physical-object listing and the
single-entity physical-object read. -/
def po_join_rows (db : Db) : List PoTerrRow :=
  db.physical_objects_data.flatMap fun po =>
    db.urban_objects_data.flatMap fun uo =>
      db.object_geometries_data.flatMap fun g =>
        db.physical_object_types_dict.filterMap fun pot =>
          if po.physical_object_id == uo.physical_object_id
              && uo.object_geometry_id == g.object_geometry_id
              && po.physical_object_type_id == pot.physical_object_type_id
          then some ⟨po, uo, g, pot⟩ else none

/-- Inner join used by the single-entity living-building read. -/
def lb_join_rows (db : Db) : List LbRow :=
  db.living_buildings_data.flatMap fun lb =>
    db.physical_objects_data.flatMap fun po =>
      db.physical_object_types_dict.flatMap fun pot =>
        db.urban_objects_data.flatMap fun uo =>
          db.object_geometries_data.filterMap fun g =>
            if po.physical_object_id == lb.physical_object_id
                && po.physical_object_type_id == pot.physical_object_type_id
                && uo.physical_object_id == po.physical_object_id
                && uo.object_geometry_id == g.object_geometry_id
            then some ⟨lb, po, pot, uo, g⟩ else none

/-- Evaluation of a predicate on a territory-scoped service join row. -/
def Pred.evalSvcTerr : Pred → SvcTerrRow → Bool
  | .geomTerritoryEq t, r => r.g.territory_id == t
  | .serviceTypeEq (some v), r => r.s.service_type_id == v
  | .serviceTypeEq none, _ => false
  | .serviceNameIlike n, r => ilike r.s.name n
  | _, _ => false

/-- Evaluation of a predicate on a capacity-aggregation join row. -/
def Pred.evalSvcCap : Pred → SvcCapRow → Bool
  | .geomTerritoryEq t, r => r.g.territory_id == t
  | .serviceTypeEq (some v), r => r.s.service_type_id == v
  | .serviceTypeEq none, _ => false
  | _, _ => false

/-- Evaluation of a predicate on a territory-scoped physical-object join
row. -/
def Pred.evalPoTerr : Pred → PoTerrRow → Bool
  | .geomTerritoryEq t, r => r.g.territory_id == t
  | .poTypeEq v, r => r.po.physical_object_type_id == v
  | .poNameIlike n, r => ilike r.po.name n
  | _, _ => false

/-- Result record of the single-entity physical-object read: the
physical-object columns plus the type name and the address of the joined
geometry. -/
structure PhysicalObjectDataDTO where
  physical_object_id : Nat
  physical_object_type_id : Nat
  name : String
  properties : Props
  physical_object_type_name : String
  address : String
  deriving DecidableEq, Repr

/-- Result record of the physical-object-type operations. -/
structure PhysicalObjectTypeDTO where
  physical_object_type_id : Nat
  name : String
  deriving DecidableEq, Repr

/-- Result record of a service listing. -/
structure ServiceDTO where
  service_id : Nat
  name : String
  capacity_real : Int
  properties : Props
  service_type_id : Nat
  urban_function_id : Nat
  service_type_name : String
  service_type_capacity_modeled : Int
  service_type_code : String
  territory_type_id : Nat
  territory_type_name : String
  deriving DecidableEq, Repr

/-- Result record of a service listing with geometry columns attached. -/
structure ServiceWithGeometryDTO extends ServiceDTO where
  geometry : Geom
  centre_point : Geom
  deriving DecidableEq, Repr

/-- Result record of the territory-scoped physical-object listing. -/
structure PhysicalObjectListDTO where
  physical_object_id : Nat
  physical_object_type_id : Nat
  physical_object_type_name : String
  name : String
  address : String
  properties : Props
  deriving DecidableEq, Repr

/-- Result record of the single-entity living-building read. -/
structure LivingBuildingsDTO where
  living_building_id : Nat
  residents_number : Int
  living_area : Int
  properties : Props
  physical_object_id : Nat
  physical_object_name : String
  physical_object_properties : Props
  physical_object_type_id : Nat
  physical_object_type_name : String
  physical_object_address : String
  deriving DecidableEq, Repr

/-- Columns selected by the territory-scoped service listing. -/
def svcTerrRowToDTO (r : SvcTerrRow) : ServiceDTO :=
  ⟨r.s.service_id, r.s.name, r.s.capacity_real, r.s.properties,
   r.st.service_type_id, r.st.urban_function_id, r.st.name,
   r.st.capacity_modeled, r.st.code, r.tt.territory_type_id, r.tt.name⟩

/-- Columns selected by the territory-scoped service listing with
geometry. -/
def svcTerrRowToGeomDTO (r : SvcTerrRow) : ServiceWithGeometryDTO :=
  ⟨svcTerrRowToDTO r, r.g.geometry, r.g.centre_point⟩

/-- Columns selected by the physical-object-scoped service listing. -/
def svcPoRowToDTO (r : SvcPoRow) : ServiceDTO :=
  ⟨r.s.service_id, r.s.name, r.s.capacity_real, r.s.properties,
   r.st.service_type_id, r.st.urban_function_id, r.st.name,
   r.st.capacity_modeled, r.st.code, r.tt.territory_type_id, r.tt.name⟩

/-- Columns selected by the single-entity physical-object read. -/
def poRowToDTO (r : PoTerrRow) : PhysicalObjectDataDTO :=
  ⟨r.po.physical_object_id, r.po.physical_object_type_id, r.po.name,
   r.po.properties, r.pot.name, r.g.address⟩

/-- Columns selected by the territory-scoped physical-object listing. -/
def poRowToListDTO (r : PoTerrRow) : PhysicalObjectListDTO :=
  ⟨r.po.physical_object_id, r.po.physical_object_type_id, r.pot.name,
   r.po.name, r.g.address, r.po.properties⟩

/-- Columns selected by the single-entity living-building read. -/
def lbRowToDTO (r : LbRow) : LivingBuildingsDTO :=
  ⟨r.lb.living_building_id, r.lb.residents_number, r.lb.living_area,
   r.lb.properties, r.po.physical_object_id, r.po.name, r.po.properties,
   r.pot.physical_object_type_id, r.pot.name, r.g.address⟩

/-- Payload of the composite physical-object create (fields of
`PhysicalObjectsDataPost` read by the handler). -/
structure PhysicalObjectsDataPost where
  territory_id : Nat
  physical_object_type_id : Nat
  name : String
  properties : Props
  geometry : Geom
  centre_point : Geom
  address : String
  deriving DecidableEq, Repr

/-- Payload of the physical-object full replace (fields of
`PhysicalObjectsDataPut` read by the handler). -/
structure PhysicalObjectsDataPut where
  physical_object_type_id : Nat
  name : String
  properties : Props
  deriving DecidableEq, Repr

/-- Modelled from the spec: the schema `PhysicalObjectsDataPatch` is not in
the provided sources; per the partial-update contract its fields are the
replace payload's fields, each optional (absent encoded as null). -/
structure PhysicalObjectsDataPatch where
  physical_object_type_id : Option Nat
  name : Option String
  properties : Option Props
  deriving DecidableEq, Repr

/-- Modelled from the spec: the schema `LivingBuildingsDataPatch` is not in
the provided sources; per the partial-update contract its fields are the
living-building replace payload's fields, each optional. -/
structure LivingBuildingsDataPatch where
  physical_object_id : Option Nat
  residents_number : Option Int
  living_area : Option Int
  properties : Option Props
  deriving DecidableEq, Repr

/-- One column assignment of a physical-object UPDATE value set. -/
inductive POAssign where
  | set_type_id : Nat → POAssign
  | set_name : String → POAssign
  | set_properties : Props → POAssign
  deriving DecidableEq, Repr

/-- The sparse write set of a physical-object patch: exactly the non-null
payload fields, in model field order (`values_to_update`). -/
def po_patch_values (p : PhysicalObjectsDataPatch) : List POAssign :=
  (match p.physical_object_type_id with
   | some v => [POAssign.set_type_id v]
   | none => []) ++
  (match p.name with
   | some v => [POAssign.set_name v]
   | none => []) ++
  (match p.properties with
   | some v => [POAssign.set_properties v]
   | none => [])

/-- Apply one column assignment to a stored physical-object row. -/
def applyPOAssign (r : PhysicalObject) : POAssign → PhysicalObject
  | .set_type_id v => { r with physical_object_type_id := v }
  | .set_name v => { r with name := v }
  | .set_properties v => { r with properties := v }

/-- Apply a write set to a stored physical-object row. -/
def applyPOAssigns (r : PhysicalObject) (l : List POAssign) : PhysicalObject :=
  l.foldl applyPOAssign r

/-- One column assignment of a living-building UPDATE value set. -/
inductive LBAssign where
  | set_physical_object_id : Nat → LBAssign
  | set_residents_number : Int → LBAssign
  | set_living_area : Int → LBAssign
  | set_properties : Props → LBAssign
  deriving DecidableEq, Repr

/-- The sparse write set of a living-building patch: exactly the non-null
payload fields, in model field order (`values_to_update`). -/
def lb_patch_values (p : LivingBuildingsDataPatch) : List LBAssign :=
  (match p.physical_object_id with
   | some v => [LBAssign.set_physical_object_id v]
   | none => []) ++
  (match p.residents_number with
   | some v => [LBAssign.set_residents_number v]
   | none => []) ++
  (match p.living_area with
   | some v => [LBAssign.set_living_area v]
   | none => []) ++
  (match p.properties with
   | some v => [LBAssign.set_properties v]
   | none => [])

/-- Apply one column assignment to a stored living-building row. -/
def applyLBAssign (r : LivingBuilding) : LBAssign → LivingBuilding
  | .set_physical_object_id v => { r with physical_object_id := v }
  | .set_residents_number v => { r with residents_number := v }
  | .set_living_area v => { r with living_area := v }
  | .set_properties v => { r with properties := v }

/-- Apply a write set to a stored living-building row. -/
def applyLBAssigns (r : LivingBuilding) (l : List LBAssign) : LivingBuilding :=
  l.foldl applyLBAssign r

/-- Embeds `add_physical_object_type_to_db`: select by name, reject a
duplicate with status 400 before any write, otherwise insert and commit. -/
def add_physical_object_type_to_db (db : Db) (type_name : String) :
    Db × Except DbError PhysicalObjectTypeDTO :=
  match one_or_none (db.physical_object_types_dict.filter fun t => t.name == type_name) with
  | .error e => (db, .error e)
  | .ok (some _) =>
      (db, .error (DbError.httpException 400
        "Invalid input (physical object type already exists)"))
  | .ok none =>
      let new_id := nextId (db.physical_object_types_dict.map
        fun t => t.physical_object_type_id)
      let row : PhysicalObjectType := ⟨new_id, type_name⟩
      ({ db with physical_object_types_dict := db.physical_object_types_dict ++ [row] },
       .ok ⟨new_id, type_name⟩)

/-- Embeds `get_physical_object_by_id_from_db`: the four-way join restricted
to the given id, fetched with `.one_or_none()`; zero rows give the typed 404,
several rows give the untyped multiple-results error. -/
def get_physical_object_by_id_from_db (db : Db) (physical_object_id : Nat) :
    Except DbError PhysicalObjectDataDTO :=
  match one_or_none ((po_join_rows db).filter
      fun r => r.po.physical_object_id == physical_object_id) with
  | .error e => .error e
  | .ok none => .error (DbError.httpException 404 "Given id is not found")
  | .ok (some r) => .ok (poRowToDTO r)

/-- Embeds `add_physical_object_with_geometry_to_db`: validate the territory,
validate the type, insert the physical object, the geometry and the junction
row, commit, and return the generated identifiers as the literal dict of the
source (which carries no urban-object id). -/
def add_physical_object_with_geometry_to_db (db : Db) (p : PhysicalObjectsDataPost) :
    Db × Except DbError (List (String × Nat)) :=
  match one_or_none (db.territories_data.filter
      fun t => t.territory_id == p.territory_id) with
  | .error e => (db, .error e)
  | .ok none => (db, .error (DbError.httpException 404 "Given territory id is not found"))
  | .ok (some _) =>
    match one_or_none (db.physical_object_types_dict.filter
        fun t => t.physical_object_type_id == p.physical_object_type_id) with
    | .error e => (db, .error e)
    | .ok none =>
        (db, .error (DbError.httpException 404 "Given physical object type id is not found"))
    | .ok (some _) =>
      let po_id := nextId (db.physical_objects_data.map (fun r => r.physical_object_id))
      let po_row : PhysicalObject := ⟨po_id, p.physical_object_type_id, p.name, p.properties⟩
      let db1 := { db with physical_objects_data := db.physical_objects_data ++ [po_row] }
      let og_id := nextId (db1.object_geometries_data.map (fun r => r.object_geometry_id))
      let og_row : ObjectGeometry := ⟨og_id, p.territory_id, p.geometry, p.centre_point, p.address⟩
      let db2 := { db1 with object_geometries_data := db1.object_geometries_data ++ [og_row] }
      let uo_id := nextId (db2.urban_objects_data.map (fun r => r.urban_object_id))
      let uo_row : UrbanObject := ⟨uo_id, po_id, og_id, none⟩
      let db3 := { db2 with urban_objects_data := db2.urban_objects_data ++ [uo_row] }
      (db3, .ok [("physical_object_id", po_id), ("object_geometry_id", og_id),
                 ("territory_id", p.territory_id)])

/-- Embeds `put_physical_object_to_db`: validate the target, validate the new
type reference, overwrite all three payload columns, commit, then re-read
through the single-entity read path. -/
def put_physical_object_to_db (db : Db) (p : PhysicalObjectsDataPut)
    (physical_object_id : Nat) : Db × Except DbError PhysicalObjectDataDTO :=
  match one_or_none (db.physical_objects_data.filter
      fun r => r.physical_object_id == physical_object_id) with
  | .error e => (db, .error e)
  | .ok none => (db, .error (DbError.httpException 404 "Given physical object id is not found"))
  | .ok (some _) =>
    match one_or_none (db.physical_object_types_dict.filter
        fun t => t.physical_object_type_id == p.physical_object_type_id) with
    | .error e => (db, .error e)
    | .ok none =>
        (db, .error (DbError.httpException 404 "Given physical object type id is not found"))
    | .ok (some _) =>
      let updated := (db.physical_objects_data.filter
          fun r => r.physical_object_id == physical_object_id).map
        fun r => { r with physical_object_type_id := p.physical_object_type_id,
                          name := p.name, properties := p.properties }
      match result_one updated with
      | .error e => (db, .error e)
      | .ok row =>
        let new_table := db.physical_objects_data.map
          (fun r => if r.physical_object_id == physical_object_id
            then { r with physical_object_type_id := p.physical_object_type_id,
                          name := p.name, properties := p.properties }
            else r)
        let db' := { db with physical_objects_data := new_table }
        (db', get_physical_object_by_id_from_db db' row.physical_object_id)

/-- Execution of the UPDATE of a physical-object patch once all validations
have passed: apply the sparse write set, commit, re-read.  An empty value set
cannot be executed and raises before any write. -/
def patch_po_apply (db : Db) (p : PhysicalObjectsDataPatch) (physical_object_id : Nat) :
    Db × Except DbError PhysicalObjectDataDTO :=
  let vals := po_patch_values p
  if vals = [] then (db, .error DbError.statementError)
  else
    let updated := (db.physical_objects_data.filter
        fun r => r.physical_object_id == physical_object_id).map
      fun r => applyPOAssigns r vals
    match result_one updated with
    | .error e => (db, .error e)
    | .ok row =>
      let new_table := db.physical_objects_data.map
        (fun r => if r.physical_object_id == physical_object_id
          then applyPOAssigns r vals else r)
      let db' := { db with physical_objects_data := new_table }
      (db', get_physical_object_by_id_from_db db' row.physical_object_id)

/-- Embeds `patch_physical_object_to_db`: validate the target; collect the
non-null payload fields into the write set, validating the type reference
when it is among them (abort with 404 and no write when it does not resolve);
then execute the UPDATE and re-read. -/
def patch_physical_object_to_db (db : Db) (p : PhysicalObjectsDataPatch)
    (physical_object_id : Nat) : Db × Except DbError PhysicalObjectDataDTO :=
  match one_or_none (db.physical_objects_data.filter
      fun r => r.physical_object_id == physical_object_id) with
  | .error e => (db, .error e)
  | .ok none => (db, .error (DbError.httpException 404 "Given physical object id is not found"))
  | .ok (some _) =>
    match p.physical_object_type_id with
    | some v =>
      match one_or_none (db.physical_object_types_dict.filter
          fun t => t.physical_object_type_id == v) with
      | .error e => (db, .error e)
      | .ok none =>
          (db, .error (DbError.httpException 404 "Given physical object type id is not found"))
      | .ok (some _) => patch_po_apply db p physical_object_id
    | none => patch_po_apply db p physical_object_id

/-- Embeds `get_living_building_by_id_from_db`: no existence precheck; the
five-way join restricted to the given id is fetched with `.one()`, so zero
rows raise the untyped no-result error and several rows the untyped
multiple-results error. -/
def get_living_building_by_id_from_db (db : Db) (living_building_id : Nat) :
    Except DbError LivingBuildingsDTO :=
  match result_one ((lb_join_rows db).filter
      fun r => r.lb.living_building_id == living_building_id) with
  | .error e => .error e
  | .ok r => .ok (lbRowToDTO r)

/-- Execution of the UPDATE of a living-building patch once all validations
have passed: apply the sparse write set, commit, re-read. -/
def patch_lb_apply (db : Db) (p : LivingBuildingsDataPatch) (living_building_id : Nat) :
    Db × Except DbError LivingBuildingsDTO :=
  let vals := lb_patch_values p
  if vals = [] then (db, .error DbError.statementError)
  else
    let updated := (db.living_buildings_data.filter
        fun r => r.living_building_id == living_building_id).map
      fun r => applyLBAssigns r vals
    match result_one updated with
    | .error e => (db, .error e)
    | .ok row =>
      let new_table := db.living_buildings_data.map
        (fun r => if r.living_building_id == living_building_id
          then applyLBAssigns r vals else r)
      let db' := { db with living_buildings_data := new_table }
      (db', get_living_building_by_id_from_db db' row.living_building_id)

/-- Embeds `patch_living_building_to_db`: validate the target; collect the
non-null payload fields into the write set, validating the physical-object
reference when it is among them (abort with 404 and no write when it does not
resolve); then execute the UPDATE and re-read. -/
def patch_living_building_to_db (db : Db) (p : LivingBuildingsDataPatch)
    (living_building_id : Nat) : Db × Except DbError LivingBuildingsDTO :=
  match one_or_none (db.living_buildings_data.filter
      fun r => r.living_building_id == living_building_id) with
  | .error e => (db, .error e)
  | .ok none => (db, .error (DbError.httpException 404 "Given living building id is not found"))
  | .ok (some _) =>
    match p.physical_object_id with
    | some v =>
      match one_or_none (db.physical_objects_data.filter
          fun r => r.physical_object_id == v) with
      | .error e => (db, .error e)
      | .ok none =>
          (db, .error (DbError.httpException 404 "Given physical object id is not found"))
      | .ok (some _) => patch_lb_apply db p living_building_id
    | none => patch_lb_apply db p living_building_id

/-- Embeds `get_services_by_physical_object_id_from_db`: require the physical
object to exist, then the composed join restricted to its junction rows with
the optional service-type and territory-type equality filters. -/
def get_services_by_physical_object_id_from_db (db : Db) (physical_object_id : Nat)
    (service_type_id : Option Nat) (territory_type_id : Option Nat) :
    Except DbError (List ServiceDTO) :=
  match one_or_none (db.physical_objects_data.filter
      fun r => r.physical_object_id == physical_object_id) with
  | .error e => .error e
  | .ok none => .error (DbError.httpException 404 "Given physical object id is not found")
  | .ok (some _) =>
    let rows0 : List SvcPoRow := (svc_po_join db).filter
      (fun r => r.uo.physical_object_id == physical_object_id)
    let rows1 : List SvcPoRow := match service_type_id with
      | some v => rows0.filter (fun r => r.s.service_type_id == v)
      | none => rows0
    let rows2 : List SvcPoRow := match territory_type_id with
      | some v => rows1.filter (fun r => r.tt.territory_type_id == v)
      | none => rows1
    .ok (rows2.map svcPoRowToDTO)

/-- Embeds `get_services_by_territory_id_from_db`: require the territory to
exist, then execute the composed join whose predicate set is the territory
scope plus the optional filters that were supplied; the executed queries are
returned alongside the result. -/
def get_services_by_territory_id_from_db (db : Db) (territory_id : Nat)
    (service_type_id : Option Nat) (svc_name : Option String) :
    Except DbError (List ServiceDTO) × List Query :=
  match one_or_none (db.territories_data.filter
      fun t => t.territory_id == territory_id) with
  | .error e => (.error e, [Query.territoriesById territory_id])
  | .ok none =>
      (.error (DbError.httpException 404 "Given territory id is not found"),
       [Query.territoriesById territory_id])
  | .ok (some _) =>
    let preds := [Pred.geomTerritoryEq territory_id] ++
      (match service_type_id with
       | some v => [Pred.serviceTypeEq (some v)]
       | none => []) ++
      (match svc_name with
       | some n => [Pred.serviceNameIlike n]
       | none => [])
    let rows := (svc_terr_join db).filter fun r => preds.all fun q => q.evalSvcTerr r
    (.ok (rows.map svcTerrRowToDTO),
     [Query.territoriesById territory_id,
      Query.entityJoin JoinKind.territoryServices preds])

/-- Embeds `get_services_with_geometry_by_territory_id_from_db`: the same
composition as the plain listing, with the geometry columns attached. -/
def get_services_with_geometry_by_territory_id_from_db (db : Db) (territory_id : Nat)
    (service_type_id : Option Nat) (svc_name : Option String) :
    Except DbError (List ServiceWithGeometryDTO) × List Query :=
  match one_or_none (db.territories_data.filter
      fun t => t.territory_id == territory_id) with
  | .error e => (.error e, [Query.territoriesById territory_id])
  | .ok none =>
      (.error (DbError.httpException 404 "Given territory id is not found"),
       [Query.territoriesById territory_id])
  | .ok (some _) =>
    let preds := [Pred.geomTerritoryEq territory_id] ++
      (match service_type_id with
       | some v => [Pred.serviceTypeEq (some v)]
       | none => []) ++
      (match svc_name with
       | some n => [Pred.serviceNameIlike n]
       | none => [])
    let rows := (svc_terr_join db).filter fun r => preds.all fun q => q.evalSvcTerr r
    (.ok (rows.map svcTerrRowToGeomDTO),
     [Query.territoriesById territory_id,
      Query.entityJoin JoinKind.territoryServicesWithGeometry preds])

/-- Embeds `get_services_capacity_by_territory_id_from_db`: require the
territory to exist, then `SUM(capacity_real)` over the three-way join.  The
source puts `service_type_id == service_type_id` into the WHERE clause
unconditionally, so a null input becomes an IS NULL comparison in the
predicate set rather than being omitted; the aggregate's raw value (NULL when
no row matches) is returned unmodified. -/
def get_services_capacity_by_territory_id_from_db (db : Db) (territory_id : Nat)
    (service_type_id : Option Nat) : Except DbError (Option Int) × List Query :=
  match one_or_none (db.territories_data.filter
      fun t => t.territory_id == territory_id) with
  | .error e => (.error e, [Query.territoriesById territory_id])
  | .ok none =>
      (.error (DbError.httpException 404 "Given territory id is not found"),
       [Query.territoriesById territory_id])
  | .ok (some _) =>
    let preds := [Pred.geomTerritoryEq territory_id, Pred.serviceTypeEq service_type_id]
    let rows := (svc_cap_join db).filter fun r => preds.all fun q => q.evalSvcCap r
    (.ok (sqlSum (rows.map fun r => r.s.capacity_real)),
     [Query.territoriesById territory_id,
      Query.entityJoin JoinKind.territoryServicesCapacitySum preds])

/-- Embeds `get_physical_objects_by_territory_id_from_db`: require the
territory to exist, then the composed join with the optional type and name
filters. -/
def get_physical_objects_by_territory_id_from_db (db : Db) (territory_id : Nat)
    (physical_object_type : Option Nat) (po_name : Option String) :
    Except DbError (List PhysicalObjectListDTO) × List Query :=
  match one_or_none (db.territories_data.filter
      fun t => t.territory_id == territory_id) with
  | .error e => (.error e, [Query.territoriesById territory_id])
  | .ok none =>
      (.error (DbError.httpException 404 "Given territory id is not found"),
       [Query.territoriesById territory_id])
  | .ok (some _) =>
    let preds := [Pred.geomTerritoryEq territory_id] ++
      (match physical_object_type with
       | some v => [Pred.poTypeEq v]
       | none => []) ++
      (match po_name with
       | some n => [Pred.poNameIlike n]
       | none => [])
    let rows := (po_join_rows db).filter fun r => preds.all fun q => q.evalPoTerr r
    (.ok (rows.map poRowToListDTO),
     [Query.territoriesById territory_id,
      Query.entityJoin JoinKind.territoryPhysicalObjects preds])

/-! Helper lemmas shared by the claim theorems. -/

/-- The element of a singleton filter result satisfies the filter
predicate. -/
theorem filter_singleton_sat {α : Type} (l : List α) (p : α → Bool) (a : α)
    (h : l.filter p = [a]) : p a = true := by
  have ha : a ∈ l.filter p := by rw [h]; exact List.mem_singleton.mpr rfl
  exact (List.mem_filter.mp ha).2

/-- A sparse physical-object write set applied to a row sets exactly the
non-null patch fields and keeps the others. -/
theorem applyPOAssigns_patch (r : PhysicalObject) (p : PhysicalObjectsDataPatch) :
    applyPOAssigns r (po_patch_values p)
      = ⟨r.physical_object_id,
         p.physical_object_type_id.getD r.physical_object_type_id,
         p.name.getD r.name, p.properties.getD r.properties⟩ := by
  rcases p with ⟨a, b, c⟩
  cases a <;> cases b <;> cases c <;> rfl

/-- A sparse living-building write set applied to a row sets exactly the
non-null patch fields and keeps the others. -/
theorem applyLBAssigns_patch (r : LivingBuilding) (p : LivingBuildingsDataPatch) :
    applyLBAssigns r (lb_patch_values p)
      = ⟨r.living_building_id,
         p.physical_object_id.getD r.physical_object_id,
         p.residents_number.getD r.residents_number,
         p.living_area.getD r.living_area,
         p.properties.getD r.properties⟩ := by
  rcases p with ⟨a, b, c, d⟩
  cases a <;> cases b <;> cases c <;> cases d <;> rfl

/-- A row of the living-building join carries a stored living-building
row. -/
theorem lb_of_mem_lb_join {db : Db} {r : LbRow} (h : r ∈ lb_join_rows db) :
    r.lb ∈ db.living_buildings_data := by
  simp only [lb_join_rows, List.mem_flatMap, List.mem_filterMap] at h
  obtain ⟨lb, hlb, po, -, pot, -, uo, -, g, -, hif⟩ := h
  split at hif
  · injection hif with h'
    subst h'
    exact hlb
  · cases hif

/-- A row of the physical-object-scoped service join carries a service-type
dictionary row whose id equals the service's type id. -/
theorem st_of_mem_svc_po_join {db : Db} {r : SvcPoRow} (h : r ∈ svc_po_join db) :
    r.st ∈ db.service_types_dict ∧ r.st.service_type_id = r.s.service_type_id := by
  simp only [svc_po_join, List.mem_flatMap, List.mem_filterMap] at h
  obtain ⟨s, -, uo, -, st, hst, tt, -, hif⟩ := h
  split at hif
  next hcond =>
    injection hif with h'
    subst h'
    simp only [Bool.and_eq_true, beq_iff_eq] at hcond
    exact ⟨hst, hcond.1.2⟩
  · cases hif

/-- A row of the territory-scoped service join carries a service-type
dictionary row whose id equals the service's type id. -/
theorem st_of_mem_svc_terr_join {db : Db} {r : SvcTerrRow} (h : r ∈ svc_terr_join db) :
    r.st ∈ db.service_types_dict ∧ r.st.service_type_id = r.s.service_type_id := by
  simp only [svc_terr_join, List.mem_flatMap, List.mem_filterMap] at h
  obtain ⟨s, -, uo, -, g, -, st, hst, tt, -, hif⟩ := h
  split at hif
  next hcond =>
    injection hif with h'
    subst h'
    simp only [Bool.and_eq_true, beq_iff_eq] at hcond
    exact ⟨hst, hcond.1.2⟩
  · cases hif

/-! Claim theorems. -/

/-- C9: creating a physical-object type whose name is already present fails
with the 400 conflict failure raised before any write, and the whole
database, in particular the type table and its row count, is unchanged. -/
theorem duplicate_type_name_conflict (db : Db) (nm : String) (t : PhysicalObjectType)
    (h : db.physical_object_types_dict.filter (fun x => x.name == nm) = [t]) :
    add_physical_object_type_to_db db nm
      = (db, .error (DbError.httpException 400
          "Invalid input (physical object type already exists)")) := by
  unfold add_physical_object_type_to_db
  rw [h]
  rfl

/-- Concrete database with one physical-object type named building. -/
def db_c9 : Db := ⟨[], [⟨1, "building"⟩], [], [], [], [], [], [], []⟩

/-- Witness for C9: duplicating the type name building on `db_c9` conflicts
and leaves the database unchanged. -/
theorem duplicate_type_name_conflict_witness :
    add_physical_object_type_to_db db_c9 "building"
      = (db_c9, .error (DbError.httpException 400
          "Invalid input (physical object type already exists)")) :=
  duplicate_type_name_conflict db_c9 "building" ⟨1, "building"⟩ rfl

/-- C4: for a territory id not present in storage, the physical-object
listing, the service listing with and without geometry and the capacity
aggregation each fail with the typed 404 and execute only the territory
existence check — the query trace contains no join against the entity
graph. -/
theorem territory_missing_scoped_reads (db : Db) (tid : Nat)
    (stid ptid : Option Nat) (nm : Option String)
    (h : db.territories_data.filter (fun t => t.territory_id == tid) = []) :
    get_physical_objects_by_territory_id_from_db db tid ptid nm
        = (.error (DbError.httpException 404 "Given territory id is not found"),
           [Query.territoriesById tid]) ∧
    get_services_by_territory_id_from_db db tid stid nm
        = (.error (DbError.httpException 404 "Given territory id is not found"),
           [Query.territoriesById tid]) ∧
    get_services_with_geometry_by_territory_id_from_db db tid stid nm
        = (.error (DbError.httpException 404 "Given territory id is not found"),
           [Query.territoriesById tid]) ∧
    get_services_capacity_by_territory_id_from_db db tid stid
        = (.error (DbError.httpException 404 "Given territory id is not found"),
           [Query.territoriesById tid]) ∧
    ([Query.territoriesById tid].filter Query.isEntityJoin) = [] := by
  refine ⟨?_, ?_, ?_, ?_, rfl⟩
  · unfold get_physical_objects_by_territory_id_from_db
    rw [h]
    rfl
  · unfold get_services_by_territory_id_from_db
    rw [h]
    rfl
  · unfold get_services_with_geometry_by_territory_id_from_db
    rw [h]
    rfl
  · unfold get_services_capacity_by_territory_id_from_db
    rw [h]
    rfl

/-- Empty database. -/
def emptyDb : Db := ⟨[], [], [], [], [], [], [], [], []⟩

/-- Witness for C4: territory 9 does not exist in the empty database and all
four scoped reads fail with the typed 404 without a join query. -/
theorem territory_missing_scoped_reads_witness :
    get_physical_objects_by_territory_id_from_db emptyDb 9 none none
        = (.error (DbError.httpException 404 "Given territory id is not found"),
           [Query.territoriesById 9]) ∧
    get_services_capacity_by_territory_id_from_db emptyDb 9 none
        = (.error (DbError.httpException 404 "Given territory id is not found"),
           [Query.territoriesById 9]) :=
  ⟨(territory_missing_scoped_reads emptyDb 9 none none none rfl).1,
   (territory_missing_scoped_reads emptyDb 9 none none none rfl).2.2.2.1⟩

/-- C8: if the territory validation or the physical-object-type validation of
the composite create fails, the operation raises the typed 404 before any
insert and the committed database — in particular the physical-object, the
object-geometry and the urban-object tables — is unchanged. -/
theorem create_aborts_on_validation_failure (db : Db) (p : PhysicalObjectsDataPost)
    (h : db.territories_data.filter (fun x => x.territory_id == p.territory_id) = [] ∨
         ((∃ t, db.territories_data.filter (fun x => x.territory_id == p.territory_id) = [t]) ∧
          db.physical_object_types_dict.filter
            (fun x => x.physical_object_type_id == p.physical_object_type_id) = [])) :
    (add_physical_object_with_geometry_to_db db p).1 = db ∧
    (add_physical_object_with_geometry_to_db db p).1.physical_objects_data
        = db.physical_objects_data ∧
    (add_physical_object_with_geometry_to_db db p).1.object_geometries_data
        = db.object_geometries_data ∧
    (add_physical_object_with_geometry_to_db db p).1.urban_objects_data
        = db.urban_objects_data ∧
    (∃ d, (add_physical_object_with_geometry_to_db db p).2
        = .error (DbError.httpException 404 d)) := by
  rcases h with h | ⟨⟨t, ht⟩, hp⟩
  · unfold add_physical_object_with_geometry_to_db
    rw [h]
    exact ⟨rfl, rfl, rfl, rfl, _, rfl⟩
  · unfold add_physical_object_with_geometry_to_db
    rw [ht, hp]
    exact ⟨rfl, rfl, rfl, rfl, _, rfl⟩

/-- Concrete create payload for territory 5 and type 2. -/
def post_c38 : PhysicalObjectsDataPost :=
  ⟨5, 2, "obj", [("x", "1")], Geom.point 30 60, Geom.point 30 60, "addr"⟩

/-- Witness for C8: creating against the empty database fails on the
territory validation, leaves everything unchanged and yields a 404. -/
theorem create_aborts_on_validation_failure_witness :
    (add_physical_object_with_geometry_to_db emptyDb post_c38).1 = emptyDb ∧
    (∃ d, (add_physical_object_with_geometry_to_db emptyDb post_c38).2
        = .error (DbError.httpException 404 d)) :=
  ⟨(create_aborts_on_validation_failure emptyDb post_c38 (Or.inl rfl)).1,
   (create_aborts_on_validation_failure emptyDb post_c38 (Or.inl rfl)).2.2.2.2⟩

/-- Concrete database with territory 5 and physical-object type 2. -/
def db_c3 : Db :=
  ⟨[⟨5, "territory-five"⟩], [⟨2, "building"⟩], [], [], [], [], [], [], []⟩

/-- C3 counterexample: at a concrete input the composite create succeeds and
inserts the junction row, but the returned record carries only the physical
object id, the object geometry id and the territory id — it contains no
urban-object identifier, contrary to the claim that all three generated
identifiers are returned. -/
theorem create_return_lacks_urban_object_id :
    (add_physical_object_with_geometry_to_db db_c3 post_c38).2
        = .ok [("physical_object_id", 1), ("object_geometry_id", 1), ("territory_id", 5)] ∧
    ((add_physical_object_with_geometry_to_db db_c3 post_c38).2.toOption.bind
        (fun r => r.lookup "urban_object_id")) = none ∧
    (add_physical_object_with_geometry_to_db db_c3 post_c38).1.urban_objects_data
        = [⟨1, 1, 1, none⟩] :=
  ⟨rfl, rfl, rfl⟩

/-- C3 amended: a successful composite create inserts the physical-object
row, the object-geometry row and the linking urban-object row, and returns
the two generated identifiers (physical object id and object geometry id)
plus the input territory id; the junction row's generated identifier is not
part of the returned record. -/
theorem create_inserts_three_rows (db : Db) (p : PhysicalObjectsDataPost)
    (t : Territory) (pot : PhysicalObjectType)
    (ht : db.territories_data.filter (fun x => x.territory_id == p.territory_id) = [t])
    (hpot : db.physical_object_types_dict.filter
        (fun x => x.physical_object_type_id == p.physical_object_type_id) = [pot]) :
    add_physical_object_with_geometry_to_db db p
      = ({ db with
            physical_objects_data := db.physical_objects_data ++
              [⟨nextId (db.physical_objects_data.map (fun r => r.physical_object_id)),
                p.physical_object_type_id, p.name, p.properties⟩],
            object_geometries_data := db.object_geometries_data ++
              [⟨nextId (db.object_geometries_data.map (fun r => r.object_geometry_id)),
                p.territory_id, p.geometry, p.centre_point, p.address⟩],
            urban_objects_data := db.urban_objects_data ++
              [⟨nextId (db.urban_objects_data.map (fun r => r.urban_object_id)),
                nextId (db.physical_objects_data.map (fun r => r.physical_object_id)),
                nextId (db.object_geometries_data.map (fun r => r.object_geometry_id)),
                none⟩] },
         .ok [("physical_object_id",
                nextId (db.physical_objects_data.map (fun r => r.physical_object_id))),
              ("object_geometry_id",
                nextId (db.object_geometries_data.map (fun r => r.object_geometry_id))),
              ("territory_id", p.territory_id)]) := by
  unfold add_physical_object_with_geometry_to_db
  rw [ht, hpot]
  rfl

/-- Witness for the amended C3 at the concrete database with territory 5 and
type 2: the generated ids are 1 and 1 and the junction row links them. -/
theorem create_inserts_three_rows_witness :
    add_physical_object_with_geometry_to_db db_c3 post_c38
      = ({ db_c3 with
            physical_objects_data := [⟨1, 2, "obj", [("x", "1")]⟩],
            object_geometries_data := [⟨1, 5, Geom.point 30 60, Geom.point 30 60, "addr"⟩],
            urban_objects_data := [⟨1, 1, 1, none⟩] },
         .ok [("physical_object_id", 1), ("object_geometry_id", 1), ("territory_id", 5)]) :=
  (create_inserts_three_rows db_c3 post_c38 ⟨5, "territory-five"⟩ ⟨2, "building"⟩
    rfl rfl).trans (by rfl)

/-- Concrete database: territory 1 holds one service of type 3 with real
capacity 10 through geometry 1 and junction row 1. -/
def db_c1 : Db :=
  ⟨[⟨1, "t"⟩], [], [], [⟨1, 1, Geom.point 0 0, Geom.point 0 0, "a"⟩],
   [⟨1, 7, 1, some 1⟩], [⟨3, 1, "school", 100, "sch"⟩], [⟨1, "city"⟩],
   [⟨1, 3, 1, "svc", 10, []⟩], []⟩

/-- C1 at the failing input: calling the capacity aggregation for the
existing territory 1 with a null service-type filter still executes a join
whose predicate set contains a service-type comparison (against the NULL
literal), and the result is the empty aggregate (`none`) although the
unfiltered join over the territory's services sums to 10 — the absent filter
is not omitted from the predicate set. -/
theorem capacity_null_filter_not_omitted :
    get_services_capacity_by_territory_id_from_db db_c1 1 none
      = (.ok none,
         [Query.territoriesById 1,
          Query.entityJoin JoinKind.territoryServicesCapacitySum
            [Pred.geomTerritoryEq 1, Pred.serviceTypeEq none]]) ∧
    sqlSum (((svc_cap_join db_c1).filter
        (fun r => Pred.evalSvcCap (Pred.geomTerritoryEq 1) r)).map
        (fun r => r.s.capacity_real)) = some 10 :=
  ⟨rfl, rfl⟩

/-- C7: for an existing territory and service type, the capacity aggregation
returns the SQL SUM of the real capacities of the join rows matching the
territory and the service type: the sum when at least one row matches, and
the null-like absence (`none`, never a coerced zero) when no row matches. -/
theorem capacity_sum_semantics (db : Db) (tid stid : Nat)
    (t : Territory) (st : ServiceType)
    (ht : db.territories_data.filter (fun x => x.territory_id == tid) = [t])
    (hst : db.service_types_dict.filter (fun x => x.service_type_id == stid) = [st]) :
    (get_services_capacity_by_territory_id_from_db db tid (some stid)).1
      = .ok (sqlSum (((svc_cap_join db).filter
          (fun r => r.g.territory_id == tid && r.s.service_type_id == stid)).map
          (fun r => r.s.capacity_real))) := by
  have hred : (get_services_capacity_by_territory_id_from_db db tid (some stid)).1
      = .ok (sqlSum (((svc_cap_join db).filter
          (fun r => [Pred.geomTerritoryEq tid, Pred.serviceTypeEq (some stid)].all
            (fun q => q.evalSvcCap r))).map (fun r => r.s.capacity_real))) := by
    unfold get_services_capacity_by_territory_id_from_db
    rw [ht]
    rfl
  have hfil : ((svc_cap_join db).filter
        (fun r => [Pred.geomTerritoryEq tid, Pred.serviceTypeEq (some stid)].all
          (fun q => q.evalSvcCap r)))
      = ((svc_cap_join db).filter
          (fun r => r.g.territory_id == tid && r.s.service_type_id == stid)) := by
    apply List.filter_congr
    intro r _
    simp [Pred.evalSvcCap]
  rw [hred, hfil]

/-- Concrete database: territory 5 holds two services of type 3 with real
capacities 10 and 15; the dictionary also lists type 4, which no service
carries. -/
def db_c7 : Db :=
  ⟨[⟨5, "t"⟩], [], [],
   [⟨1, 5, Geom.point 0 0, Geom.point 0 0, "a"⟩],
   [⟨1, 11, 1, some 1⟩, ⟨2, 12, 1, some 2⟩],
   [⟨3, 1, "school", 100, "sch"⟩, ⟨4, 1, "park", 50, "prk"⟩], [⟨1, "city"⟩],
   [⟨1, 3, 1, "s1", 10, []⟩, ⟨2, 3, 1, "s2", 15, []⟩], []⟩

/-- Witness for C7: capacities 10 and 15 of type 3 in territory 5 sum to 25,
and type 4 with zero matching rows yields the null-like absence. -/
theorem capacity_sum_semantics_witness :
    (get_services_capacity_by_territory_id_from_db db_c7 5 (some 3)).1 = .ok (some 25) ∧
    (get_services_capacity_by_territory_id_from_db db_c7 5 (some 4)).1 = .ok none :=
  ⟨(capacity_sum_semantics db_c7 5 3 ⟨5, "t"⟩ ⟨3, 1, "school", 100, "sch"⟩
      rfl rfl).trans (by rfl),
   (capacity_sum_semantics db_c7 5 4 ⟨5, "t"⟩ ⟨4, 1, "park", 50, "prk"⟩
      rfl rfl).trans (by rfl)⟩

/-- A row of the physical-object-scoped service join carries a territory-type
dictionary row whose id equals the service's territory-type id. -/
theorem tt_of_mem_svc_po_join {db : Db} {r : SvcPoRow} (h : r ∈ svc_po_join db) :
    r.tt ∈ db.territory_types_dict ∧ r.tt.territory_type_id = r.s.territory_type_id := by
  simp only [svc_po_join, List.mem_flatMap, List.mem_filterMap] at h
  obtain ⟨s, -, uo, -, st, -, tt, htt, hif⟩ := h
  split at hif
  next hcond =>
    injection hif with h'
    subst h'
    simp only [Bool.and_eq_true, beq_iff_eq] at hcond
    exact ⟨htt, hcond.2⟩
  · cases hif

/-- C6 counterexample: reading living building 42 from the empty database
raises the untyped SQLAlchemy no-result error, which is not the typed 404
NotFound failure the claim promises. -/
theorem living_building_read_untyped_cex :
    get_living_building_by_id_from_db emptyDb 42 = .error DbError.noResultFound ∧
    (∀ d, DbError.noResultFound ≠ DbError.httpException 404 d) :=
  ⟨rfl, fun _ h => DbError.noConfusion h⟩

/-- C6 amended: the read-by-living-building-id operation performs no
existence precheck; for a living-building id not present in storage the join
yields no rows and the single-row fetch raises the untyped no-result error
(not the typed NotFound and not an empty result). -/
theorem living_building_read_missing_untyped (db : Db) (lbid : Nat)
    (h : db.living_buildings_data.filter (fun x => x.living_building_id == lbid) = []) :
    get_living_building_by_id_from_db db lbid = .error DbError.noResultFound := by
  have hrows : (lb_join_rows db).filter
      (fun r => r.lb.living_building_id == lbid) = [] := by
    apply List.filter_eq_nil_iff.mpr
    intro r hr hb
    have hmem : r.lb ∈ db.living_buildings_data.filter
        (fun x => x.living_building_id == lbid) :=
      List.mem_filter.mpr ⟨lb_of_mem_lb_join hr, hb⟩
    rw [h] at hmem
    cases hmem
  unfold get_living_building_by_id_from_db
  rw [hrows]
  rfl

/-- Concrete database holding living building 1 only. -/
def db_c6 : Db :=
  ⟨[], [], [⟨1, 1, "po", []⟩], [], [], [], [], [], [⟨1, 1, 10, 100, []⟩]⟩

/-- Witness for the amended C6: living building 7 is absent from `db_c6` and
the read raises the untyped no-result error. -/
theorem living_building_read_missing_untyped_witness :
    get_living_building_by_id_from_db db_c6 7 = .error DbError.noResultFound :=
  living_building_read_missing_untyped db_c6 7 rfl

/-- Shape of a successful physical-object-scoped service listing: once the
scoping physical object resolves, the result is the join restricted to its
junction rows and filtered by the supplied optional predicates. -/
theorem get_services_by_po_ok (db : Db) (poid : Nat) (stid ttid : Option Nat)
    (po : PhysicalObject)
    (hpo : db.physical_objects_data.filter
        (fun r => r.physical_object_id == poid) = [po]) :
    get_services_by_physical_object_id_from_db db poid stid ttid
      = .ok (((match ttid with
          | some v =>
            ((match stid with
             | some w =>
               ((svc_po_join db).filter
                   (fun r => r.uo.physical_object_id == poid)).filter
                 (fun r => r.s.service_type_id == w)
             | none =>
               (svc_po_join db).filter
                 (fun r => r.uo.physical_object_id == poid) : List SvcPoRow)).filter
              (fun r => r.tt.territory_type_id == v)
          | none =>
            match stid with
            | some w =>
              ((svc_po_join db).filter
                  (fun r => r.uo.physical_object_id == poid)).filter
                (fun r => r.s.service_type_id == w)
            | none =>
              (svc_po_join db).filter
                (fun r => r.uo.physical_object_id == poid) : List SvcPoRow)).map
          svcPoRowToDTO) := by
  unfold get_services_by_physical_object_id_from_db
  rw [hpo]
  rfl

/-- Shape of a successful territory-scoped service listing: once the
territory resolves, the result is the join filtered by the composed predicate
set, and the query trace records that predicate set. -/
theorem get_services_by_territory_ok (db : Db) (tid : Nat) (stid : Option Nat)
    (nm : Option String) (t : Territory)
    (ht : db.territories_data.filter (fun x => x.territory_id == tid) = [t]) :
    get_services_by_territory_id_from_db db tid stid nm
      = (.ok (((svc_terr_join db).filter
            (fun r => ([Pred.geomTerritoryEq tid] ++
              (match stid with
               | some v => [Pred.serviceTypeEq (some v)]
               | none => []) ++
              (match nm with
               | some n => [Pred.serviceNameIlike n]
               | none => [])).all (fun q => q.evalSvcTerr r))).map svcTerrRowToDTO),
         [Query.territoriesById tid,
          Query.entityJoin JoinKind.territoryServices
            ([Pred.geomTerritoryEq tid] ++
              (match stid with
               | some v => [Pred.serviceTypeEq (some v)]
               | none => []) ++
              (match nm with
               | some n => [Pred.serviceNameIlike n]
               | none => []))]) := by
  unfold get_services_by_territory_id_from_db
  rw [ht]
  rfl

/-- C10: only the scoping parent is existence-validated in scoped service
reads; an optional service-type or territory-type filter id that does not
exist in the dictionary tables is simply a predicate matching nothing, so the
read succeeds with the empty list instead of failing with NotFound. -/
theorem unknown_filter_id_yields_empty :
    (∀ (db : Db) (poid stid : Nat) (ttid : Option Nat) (po : PhysicalObject),
      db.physical_objects_data.filter (fun r => r.physical_object_id == poid) = [po] →
      (∀ st ∈ db.service_types_dict, st.service_type_id ≠ stid) →
      get_services_by_physical_object_id_from_db db poid (some stid) ttid = .ok []) ∧
    (∀ (db : Db) (poid ttidv : Nat) (stid : Option Nat) (po : PhysicalObject),
      db.physical_objects_data.filter (fun r => r.physical_object_id == poid) = [po] →
      (∀ tt ∈ db.territory_types_dict, tt.territory_type_id ≠ ttidv) →
      get_services_by_physical_object_id_from_db db poid stid (some ttidv) = .ok []) ∧
    (∀ (db : Db) (tid stid : Nat) (nm : Option String) (t : Territory),
      db.territories_data.filter (fun x => x.territory_id == tid) = [t] →
      (∀ st ∈ db.service_types_dict, st.service_type_id ≠ stid) →
      (get_services_by_territory_id_from_db db tid (some stid) nm).1 = .ok []) := by
  refine ⟨?_, ?_, ?_⟩
  · intro db poid stid ttid po hpo hdict
    have h1 : ((svc_po_join db).filter
        (fun r => r.uo.physical_object_id == poid)).filter
        (fun r => r.s.service_type_id == stid) = [] := by
      apply List.filter_eq_nil_iff.mpr
      intro r hr hb
      obtain ⟨hst, heq⟩ := st_of_mem_svc_po_join (List.mem_of_mem_filter hr)
      exact hdict r.st hst (heq.trans (eq_of_beq hb))
    rw [get_services_by_po_ok db poid (some stid) ttid po hpo]
    refine congrArg Except.ok ?_
    rw [List.map_eq_nil_iff]
    cases ttid with
    | none => exact h1
    | some v =>
      have h2 : (((svc_po_join db).filter
          (fun r => r.uo.physical_object_id == poid)).filter
          (fun r => r.s.service_type_id == stid)).filter
          (fun r => r.tt.territory_type_id == v) = [] := by
        rw [h1]
        rfl
      exact h2
  · intro db poid ttidv stid po hpo hdict
    have hgen : ∀ (l : List SvcPoRow), (∀ r ∈ l, r ∈ svc_po_join db) →
        l.filter (fun r => r.tt.territory_type_id == ttidv) = [] := by
      intro l hl
      apply List.filter_eq_nil_iff.mpr
      intro r hr hb
      obtain ⟨htt, -⟩ := tt_of_mem_svc_po_join (hl r hr)
      exact hdict r.tt htt (eq_of_beq hb)
    rw [get_services_by_po_ok db poid stid (some ttidv) po hpo]
    refine congrArg Except.ok ?_
    rw [List.map_eq_nil_iff]
    cases stid with
    | none =>
      exact hgen _ (fun r hr => List.mem_of_mem_filter hr)
    | some w =>
      exact hgen _ (fun r hr =>
        List.mem_of_mem_filter (List.mem_of_mem_filter hr))
  · intro db tid stid nm t ht hdict
    rw [get_services_by_territory_ok db tid (some stid) nm t ht]
    dsimp only
    refine congrArg Except.ok ?_
    rw [List.map_eq_nil_iff]
    cases nm with
    | none =>
      apply List.filter_eq_nil_iff.mpr
      intro r hr hall
      simp only [List.all_eq_true] at hall
      have hmem : Pred.serviceTypeEq (some stid) ∈
          ([Pred.geomTerritoryEq tid] ++ [Pred.serviceTypeEq (some stid)] ++
            ([] : List Pred)) := by
        simp
      have hb : (r.s.service_type_id == stid) = true :=
        hall (Pred.serviceTypeEq (some stid)) hmem
      obtain ⟨hst, heq⟩ := st_of_mem_svc_terr_join hr
      exact hdict r.st hst (heq.trans (eq_of_beq hb))
    | some n =>
      apply List.filter_eq_nil_iff.mpr
      intro r hr hall
      simp only [List.all_eq_true] at hall
      have hmem : Pred.serviceTypeEq (some stid) ∈
          ([Pred.geomTerritoryEq tid] ++ [Pred.serviceTypeEq (some stid)] ++
            [Pred.serviceNameIlike n]) := by
        simp
      have hb : (r.s.service_type_id == stid) = true :=
        hall (Pred.serviceTypeEq (some stid)) hmem
      obtain ⟨hst, heq⟩ := st_of_mem_svc_terr_join hr
      exact hdict r.st hst (heq.trans (eq_of_beq hb))

/-- Concrete database: physical object 1 of type 1 carries service 1 of
service type 3 and territory type 1 in territory 5. -/
def db_c10 : Db :=
  ⟨[⟨5, "t"⟩], [⟨1, "b"⟩], [⟨1, 1, "po", []⟩],
   [⟨1, 5, Geom.point 0 0, Geom.point 0 0, "a"⟩],
   [⟨1, 1, 1, some 1⟩],
   [⟨3, 1, "school", 100, "sch"⟩], [⟨1, "city"⟩],
   [⟨1, 3, 1, "svc", 10, []⟩], []⟩

/-- Witness for C10: service-type id 99 and territory-type id 99 exist in no
dictionary row of `db_c10`; the scoped reads succeed with the empty list. -/
theorem unknown_filter_id_yields_empty_witness :
    get_services_by_physical_object_id_from_db db_c10 1 (some 99) none = .ok [] ∧
    get_services_by_physical_object_id_from_db db_c10 1 none (some 99) = .ok [] ∧
    (get_services_by_territory_id_from_db db_c10 5 (some 99) none).1 = .ok [] :=
  ⟨unknown_filter_id_yields_empty.1 db_c10 1 99 none ⟨1, 1, "po", []⟩ rfl
      (by decide),
   unknown_filter_id_yields_empty.2.1 db_c10 1 99 none ⟨1, 1, "po", []⟩ rfl
      (by decide),
   unknown_filter_id_yields_empty.2.2 db_c10 5 99 none ⟨5, "t"⟩ rfl
      (by decide)⟩

/-- Once its validations have passed, a physical-object patch writes exactly
the non-null payload fields of the targeted row (absent fields keep their
stored values, other rows are untouched), commits, and re-reads the entity
through the standard single-entity read path. -/
theorem patch_po_apply_full (db : Db) (p : PhysicalObjectsDataPatch) (poid : Nat)
    (po : PhysicalObject)
    (hpo : db.physical_objects_data.filter (fun r => r.physical_object_id == poid) = [po])
    (hvals : po_patch_values p ≠ []) :
    patch_po_apply db p poid
      = ({ db with physical_objects_data := db.physical_objects_data.map (fun r =>
            if r.physical_object_id == poid
            then ⟨r.physical_object_id,
                  p.physical_object_type_id.getD r.physical_object_type_id,
                  p.name.getD r.name, p.properties.getD r.properties⟩
            else r) },
         get_physical_object_by_id_from_db
           { db with physical_objects_data := db.physical_objects_data.map (fun r =>
              if r.physical_object_id == poid
              then ⟨r.physical_object_id,
                    p.physical_object_type_id.getD r.physical_object_type_id,
                    p.name.getD r.name, p.properties.getD r.properties⟩
              else r) }
           poid) := by
  have hsat := filter_singleton_sat db.physical_objects_data
    (fun r => r.physical_object_id == poid) po hpo
  have hpoid : po.physical_object_id = poid := eq_of_beq hsat
  unfold patch_po_apply
  rw [if_neg hvals, hpo, ← hpoid]
  simp only [List.map_cons, List.map_nil, result_one, applyPOAssigns_patch]

/-- Once its validations have passed, a living-building patch writes exactly
the non-null payload fields of the targeted row, commits, and re-reads the
entity through the standard single-entity read path. -/
theorem patch_lb_apply_full (db : Db) (p : LivingBuildingsDataPatch) (lbid : Nat)
    (lb : LivingBuilding)
    (hlb : db.living_buildings_data.filter (fun r => r.living_building_id == lbid) = [lb])
    (hvals : lb_patch_values p ≠ []) :
    patch_lb_apply db p lbid
      = ({ db with living_buildings_data := db.living_buildings_data.map (fun r =>
            if r.living_building_id == lbid
            then ⟨r.living_building_id,
                  p.physical_object_id.getD r.physical_object_id,
                  p.residents_number.getD r.residents_number,
                  p.living_area.getD r.living_area,
                  p.properties.getD r.properties⟩
            else r) },
         get_living_building_by_id_from_db
           { db with living_buildings_data := db.living_buildings_data.map (fun r =>
              if r.living_building_id == lbid
              then ⟨r.living_building_id,
                    p.physical_object_id.getD r.physical_object_id,
                    p.residents_number.getD r.residents_number,
                    p.living_area.getD r.living_area,
                    p.properties.getD r.properties⟩
              else r) }
           lbid) := by
  have hsat := filter_singleton_sat db.living_buildings_data
    (fun r => r.living_building_id == lbid) lb hlb
  have hlbid : lb.living_building_id = lbid := eq_of_beq hsat
  unfold patch_lb_apply
  rw [if_neg hvals, hlb, ← hlbid]
  simp only [List.map_cons, List.map_nil, result_one, applyLBAssigns_patch]

/-- C2: a patch of an existing physical object (or living building) writes
exactly the non-null payload fields and every absent field keeps its stored
value (other rows untouched); a patch whose foreign-key field does not
resolve aborts with the typed 404 and modifies nothing. -/
theorem patch_sparse_merge :
    (∀ (db : Db) (p : PhysicalObjectsDataPatch) (poid : Nat) (po : PhysicalObject),
      db.physical_objects_data.filter (fun r => r.physical_object_id == poid) = [po] →
      (∀ v, p.physical_object_type_id = some v →
        (∃ pot, db.physical_object_types_dict.filter
          (fun x => x.physical_object_type_id == v) = [pot])) →
      po_patch_values p ≠ [] →
      (patch_physical_object_to_db db p poid).1.physical_objects_data
        = db.physical_objects_data.map (fun r =>
            if r.physical_object_id == poid
            then ⟨r.physical_object_id,
                  p.physical_object_type_id.getD r.physical_object_type_id,
                  p.name.getD r.name, p.properties.getD r.properties⟩
            else r)) ∧
    (∀ (db : Db) (p : PhysicalObjectsDataPatch) (poid v : Nat) (po : PhysicalObject),
      db.physical_objects_data.filter (fun r => r.physical_object_id == poid) = [po] →
      p.physical_object_type_id = some v →
      db.physical_object_types_dict.filter
        (fun x => x.physical_object_type_id == v) = [] →
      patch_physical_object_to_db db p poid
        = (db, .error (DbError.httpException 404
            "Given physical object type id is not found"))) ∧
    (∀ (db : Db) (p : LivingBuildingsDataPatch) (lbid : Nat) (lb : LivingBuilding),
      db.living_buildings_data.filter (fun r => r.living_building_id == lbid) = [lb] →
      (∀ v, p.physical_object_id = some v →
        (∃ po, db.physical_objects_data.filter
          (fun x => x.physical_object_id == v) = [po])) →
      lb_patch_values p ≠ [] →
      (patch_living_building_to_db db p lbid).1.living_buildings_data
        = db.living_buildings_data.map (fun r =>
            if r.living_building_id == lbid
            then ⟨r.living_building_id,
                  p.physical_object_id.getD r.physical_object_id,
                  p.residents_number.getD r.residents_number,
                  p.living_area.getD r.living_area,
                  p.properties.getD r.properties⟩
            else r)) ∧
    (∀ (db : Db) (p : LivingBuildingsDataPatch) (lbid v : Nat) (lb : LivingBuilding),
      db.living_buildings_data.filter (fun r => r.living_building_id == lbid) = [lb] →
      p.physical_object_id = some v →
      db.physical_objects_data.filter (fun x => x.physical_object_id == v) = [] →
      patch_living_building_to_db db p lbid
        = (db, .error (DbError.httpException 404
            "Given physical object id is not found"))) := by
  refine ⟨?_, ?_, ?_, ?_⟩
  · intro db p poid po hpo hty hvals
    unfold patch_physical_object_to_db
    rw [hpo]
    cases hpt : p.physical_object_type_id with
    | none =>
      exact (congrArg (fun x => x.1.physical_objects_data)
        (patch_po_apply_full db p poid po hpo hvals)).trans (by rw [hpt])
    | some v =>
      obtain ⟨pot, hpot⟩ := hty v hpt
      simp only [hpot, one_or_none]
      exact (congrArg (fun x => x.1.physical_objects_data)
        (patch_po_apply_full db p poid po hpo hvals)).trans (by rw [hpt])
  · intro db p poid v po hpo hpt hdict
    unfold patch_physical_object_to_db
    rw [hpo, hpt]
    simp only [hdict, one_or_none]
  · intro db p lbid lb hlb hpo hvals
    unfold patch_living_building_to_db
    rw [hlb]
    cases hpt : p.physical_object_id with
    | none =>
      exact (congrArg (fun x => x.1.living_buildings_data)
        (patch_lb_apply_full db p lbid lb hlb hvals)).trans (by rw [hpt])
    | some v =>
      obtain ⟨po, hpo'⟩ := hpo v hpt
      simp only [hpo', one_or_none]
      exact (congrArg (fun x => x.1.living_buildings_data)
        (patch_lb_apply_full db p lbid lb hlb hvals)).trans (by rw [hpt])
  · intro db p lbid v lb hlb hpt hdict
    unfold patch_living_building_to_db
    rw [hlb, hpt]
    simp only [hdict, one_or_none]

/-- Concrete database: physical object 1 named A with properties x=1 and
type 1, and living building 1 over it. -/
def db_c2 : Db :=
  ⟨[], [⟨1, "t1"⟩], [⟨1, 1, "A", [("x", "1")]⟩], [], [], [], [], [],
   [⟨1, 1, 10, 100, []⟩]⟩

/-- Witness for C2: a name-only patch rewrites the name and keeps properties
and type; a patch whose foreign key does not resolve fails with 404 and
leaves the database unchanged; likewise for the living building. -/
theorem patch_sparse_merge_witness :
    (patch_physical_object_to_db db_c2 ⟨none, some "B", none⟩ 1).1.physical_objects_data
        = [⟨1, 1, "B", [("x", "1")]⟩] ∧
    patch_physical_object_to_db db_c2 ⟨some 99, none, none⟩ 1
        = (db_c2, .error (DbError.httpException 404
            "Given physical object type id is not found")) ∧
    (patch_living_building_to_db db_c2 ⟨none, some 20, none, none⟩ 1).1.living_buildings_data
        = [⟨1, 1, 20, 100, []⟩] ∧
    patch_living_building_to_db db_c2 ⟨some 99, none, none, none⟩ 1
        = (db_c2, .error (DbError.httpException 404
            "Given physical object id is not found")) :=
  ⟨(patch_sparse_merge.1 db_c2 ⟨none, some "B", none⟩ 1 ⟨1, 1, "A", [("x", "1")]⟩
      rfl (fun _ hv => Option.noConfusion hv) (by decide)).trans (by rfl),
   patch_sparse_merge.2.1 db_c2 ⟨some 99, none, none⟩ 1 99 ⟨1, 1, "A", [("x", "1")]⟩
      rfl rfl rfl,
   (patch_sparse_merge.2.2.1 db_c2 ⟨none, some 20, none, none⟩ 1 ⟨1, 1, 10, 100, []⟩
      rfl (fun _ hv => Option.noConfusion hv) (by decide)).trans (by rfl),
   patch_sparse_merge.2.2.2 db_c2 ⟨some 99, none, none, none⟩ 1 99 ⟨1, 1, 10, 100, []⟩
      rfl rfl rfl⟩

/-- Concrete database: physical object 1 has two geometries through two
junction rows. -/
def db_c5 : Db :=
  ⟨[⟨1, "t"⟩], [⟨1, "b"⟩], [⟨1, 1, "A", []⟩],
   [⟨1, 1, Geom.point 0 0, Geom.point 0 0, "a1"⟩,
    ⟨2, 1, Geom.point 1 1, Geom.point 1 1, "a2"⟩],
   [⟨1, 1, 1, none⟩, ⟨2, 1, 2, none⟩],
   [], [], [], []⟩

/-- C5 counterexample: physical object 1 exists and has two associated
geometries (two junction rows); the replace validates and writes, but the
re-read through the single-entity path raises the untyped multiple-results
error instead of returning the entity with the first geometry's address. -/
theorem put_reread_two_junction_rows_cex :
    (put_physical_object_to_db db_c5 ⟨1, "B", []⟩ 1).2
        = .error DbError.multipleResultsFound ∧
    (db_c5.urban_objects_data.filter (fun x => x.physical_object_id == 1)).length = 2 :=
  ⟨rfl, rfl⟩

/-- C5 amended: the single-entity read returns the re-joined entity (type
name, address of the joined geometry) exactly when the join yields one row;
replace and patch, after validating the target and the type reference, write
the payload and re-read the entity through that standard read path on the
updated database. -/
theorem put_patch_rejoined_read :
    (∀ (db : Db) (poid : Nat) (r : PoTerrRow),
      (po_join_rows db).filter (fun x => x.po.physical_object_id == poid) = [r] →
      get_physical_object_by_id_from_db db poid
        = .ok ⟨r.po.physical_object_id, r.po.physical_object_type_id, r.po.name,
               r.po.properties, r.pot.name, r.g.address⟩) ∧
    (∀ (db : Db) (p : PhysicalObjectsDataPut) (poid : Nat)
        (po : PhysicalObject) (pot : PhysicalObjectType),
      db.physical_objects_data.filter (fun x => x.physical_object_id == poid) = [po] →
      db.physical_object_types_dict.filter
        (fun x => x.physical_object_type_id == p.physical_object_type_id) = [pot] →
      put_physical_object_to_db db p poid
        = ({ db with physical_objects_data := db.physical_objects_data.map (fun r =>
              if r.physical_object_id == poid
              then { r with physical_object_type_id := p.physical_object_type_id,
                            name := p.name, properties := p.properties }
              else r) },
           get_physical_object_by_id_from_db
             { db with physical_objects_data := db.physical_objects_data.map (fun r =>
                if r.physical_object_id == poid
                then { r with physical_object_type_id := p.physical_object_type_id,
                              name := p.name, properties := p.properties }
                else r) }
             poid)) ∧
    (∀ (db : Db) (p : PhysicalObjectsDataPatch) (poid : Nat) (po : PhysicalObject),
      db.physical_objects_data.filter (fun x => x.physical_object_id == poid) = [po] →
      (∀ v, p.physical_object_type_id = some v →
        (∃ pot, db.physical_object_types_dict.filter
          (fun x => x.physical_object_type_id == v) = [pot])) →
      po_patch_values p ≠ [] →
      patch_physical_object_to_db db p poid
        = ({ db with physical_objects_data := db.physical_objects_data.map (fun r =>
              if r.physical_object_id == poid
              then ⟨r.physical_object_id,
                    p.physical_object_type_id.getD r.physical_object_type_id,
                    p.name.getD r.name, p.properties.getD r.properties⟩
              else r) },
           get_physical_object_by_id_from_db
             { db with physical_objects_data := db.physical_objects_data.map (fun r =>
                if r.physical_object_id == poid
                then ⟨r.physical_object_id,
                      p.physical_object_type_id.getD r.physical_object_type_id,
                      p.name.getD r.name, p.properties.getD r.properties⟩
                else r) }
             poid)) := by
  refine ⟨?_, ?_, ?_⟩
  · intro db poid r hjoin
    unfold get_physical_object_by_id_from_db
    rw [hjoin]
    rfl
  · intro db p poid po pot hpo hpot
    have hsat := filter_singleton_sat db.physical_objects_data
      (fun x => x.physical_object_id == poid) po hpo
    have hpoid : po.physical_object_id = poid := eq_of_beq hsat
    unfold put_physical_object_to_db
    rw [hpo, hpot, ← hpoid]
    rfl
  · intro db p poid po hpo hty hvals
    unfold patch_physical_object_to_db
    rw [hpo]
    cases hpt : p.physical_object_type_id with
    | none =>
      exact (patch_po_apply_full db p poid po hpo hvals).trans (by rw [hpt])
    | some v =>
      obtain ⟨pot, hpot⟩ := hty v hpt
      simp only [hpot, one_or_none]
      exact (patch_po_apply_full db p poid po hpo hvals).trans (by rw [hpt])

/-- Concrete database: physical object 1 of type 1 with exactly one geometry
(address addr1) through one junction row; type 2 also exists. -/
def db_c5w : Db :=
  ⟨[⟨1, "t"⟩], [⟨1, "b"⟩, ⟨2, "r"⟩], [⟨1, 1, "A", []⟩],
   [⟨1, 1, Geom.point 0 0, Geom.point 0 0, "addr1"⟩],
   [⟨1, 1, 1, none⟩], [], [], [], []⟩

/-- Witness for the amended C5: replacing and patching physical object 1,
which has exactly one junction row, returns the re-joined entity carrying the
type name and the geometry's address. -/
theorem put_patch_rejoined_read_witness :
    (put_physical_object_to_db db_c5w ⟨2, "B", [("k", "v")]⟩ 1).2
        = .ok ⟨1, 2, "B", [("k", "v")], "r", "addr1"⟩ ∧
    (patch_physical_object_to_db db_c5w ⟨none, some "C", none⟩ 1).2
        = .ok ⟨1, 1, "C", [], "b", "addr1"⟩ := by
  constructor
  · rw [put_patch_rejoined_read.2.1 db_c5w ⟨2, "B", [("k", "v")]⟩ 1
      ⟨1, 1, "A", []⟩ ⟨2, "r"⟩ rfl rfl]
    exact put_patch_rejoined_read.1
      ⟨[⟨1, "t"⟩], [⟨1, "b"⟩, ⟨2, "r"⟩], [⟨1, 2, "B", [("k", "v")]⟩],
       [⟨1, 1, Geom.point 0 0, Geom.point 0 0, "addr1"⟩],
       [⟨1, 1, 1, none⟩], [], [], [], []⟩ 1
      ⟨⟨1, 2, "B", [("k", "v")]⟩, ⟨1, 1, 1, none⟩,
       ⟨1, 1, Geom.point 0 0, Geom.point 0 0, "addr1"⟩, ⟨2, "r"⟩⟩ rfl
  · rw [put_patch_rejoined_read.2.2 db_c5w ⟨none, some "C", none⟩ 1
      ⟨1, 1, "A", []⟩ rfl (fun _ hv => Option.noConfusion hv) (by decide)]
    exact put_patch_rejoined_read.1
      ⟨[⟨1, "t"⟩], [⟨1, "b"⟩, ⟨2, "r"⟩], [⟨1, 1, "C", []⟩],
       [⟨1, 1, Geom.point 0 0, Geom.point 0 0, "addr1"⟩],
       [⟨1, 1, 1, none⟩], [], [], [], []⟩ 1
      ⟨⟨1, 1, "C", []⟩, ⟨1, 1, 1, none⟩,
       ⟨1, 1, Geom.point 0 0, Geom.point 0 0, "addr1"⟩, ⟨1, "b"⟩⟩ rfl

end UrbanApi
